import Mathlib

/-!
Verification of the LTLab internship-application web app (`src/app.py`).

The embedding models Python strings as `List Char` (`Str`), form values as
`Option Str` (`request.form.get` returns `None` when a field is absent),
and the `POST /apply` handler as a pure function from the form input, the
current table contents and the outcome of the database insert to the HTTP
response, the new table contents and the log entries emitted.
-/

set_option autoImplicit false

namespace LTLab

/-- A Python string, modelled as its list of characters. -/
abbrev Str := List Char

/-- Python truthiness of an optional string: `None` and `""` are falsy,
every non-empty string is truthy.  This is what `all([...])` tests on
each element of the list at `src/app.py:92`. -/
def truthy : Option Str → Bool
  | none => false
  | some s => !s.isEmpty

/-- Python's `sep.join(l)` for a one-character separator: the elements of
`l` concatenated with `sep` between consecutive elements. -/
def intercalateChar (sep : Char) : List Str → Str
  | [] => []
  | [x] => x
  | x :: y :: xs => x ++ sep :: intercalateChar sep (y :: xs)

/-- The Domain Encoder, `src/app.py:75`:
`domains = ",".join(domains_list) if domains_list else ""`. -/
def joinDomains (domains_list : List Str) : Str :=
  if domains_list.isEmpty then [] else intercalateChar ',' domains_list

/-- Modelled from the spec: the downstream decoding the spec's Domain
Encoder contract names ("reversible by splitting on comma"); this is
Python's `s.split(",")`, which is not itself in `src/app.py`.  In
particular the empty string splits to `[""]`, never to `[]`. -/
def splitComma : Str → List Str
  | [] => [[]]
  | c :: rest =>
    match splitComma rest with
    | [] => [[]]
    | w :: ws => if c = ',' then [] :: w :: ws else (c :: w) :: ws

/-- The raw `POST /apply` form body: the seven `request.form.get` fields
(`src/app.py:67-73`) and the repeated `domains` checkbox values returned
by `request.form.getlist("domains")` (`src/app.py:74`). -/
structure FormInput where
  email : Option Str
  fullName : Option Str
  gender : Option Str
  whatsapp : Option Str
  college : Option Str
  country : Option Str
  linkedin : Option Str
  domains : List Str
deriving DecidableEq

/-- One row of `ltlab_schema.applications` (`src/app.py:35-51`); the
`id` column is assigned by the store and irrelevant to the claims. -/
structure Row where
  email : Str
  full_name : Str
  gender : Str
  whatsapp : Str
  education : Str
  country : Str
  linkedin : Str
  domains : Str
deriving DecidableEq

/-- Log severity of the `app.logger` calls in the handler. -/
inductive LogLevel where
  | info
  | warning
  | error
deriving DecidableEq

/-- The content of each log call in the handler, carrying the data the
Python format string interpolates. -/
inductive LogEvent where
  /-- `src/app.py:78`: "FORM DATA -> ..." with the raw field values and
  the joined domains string. -/
  | formData (email fullName gender whatsapp education country linkedin : Option Str)
      (domains : Str)
  /-- `src/app.py:94`: "Validation failed. Error: %s". -/
  | validationFailed (msg : Str)
  /-- `src/app.py:113`: "Application inserted successfully for email=%s". -/
  | insertSuccess (email : Option Str)
  /-- `src/app.py:117`: "Database error while inserting application: %s". -/
  | dbError (detail : Str)
deriving DecidableEq

/-- One emitted log entry: a severity and the event logged. -/
structure LogEntry where
  level : LogLevel
  event : LogEvent
deriving DecidableEq

/-- The HTTP response of the `POST /apply` handler: re-render of
`apply.html` with an optional error string, a plain-text response with a
status code, or a redirect to the `thank_you` route. -/
inductive ApplyResponse where
  | renderForm (error : Option Str)
  | serverError (body : Str) (status : Nat)
  | redirectThankYou
deriving DecidableEq

/-- The fixed validation message, `src/app.py:93`. -/
def validationError : Str :=
  "Please fill in all required fields and select at least one domain.".data

/-- The fixed persistence-failure body, `src/app.py:119`. -/
def serverErrorMsg : Str :=
  "Internal server error while saving your application.".data

/-- Everything observable about one handled `POST /apply` request: the
response, the final table contents and the log entries in order. -/
structure ApplyResult where
  response : ApplyResponse
  rows : List Row
  log : List LogEntry
deriving DecidableEq

/-- The validation test of `src/app.py:92`:
`all([email, full_name, gender, whatsapp, education, country, linkedin, domains])`,
where `domains` is the comma-joined string, not the raw list. -/
def formValid (f : FormInput) : Bool :=
  truthy f.email && truthy f.fullName && truthy f.gender && truthy f.whatsapp &&
    truthy f.college && truthy f.country && truthy f.linkedin &&
    !(joinDomains f.domains).isEmpty

/-- The `POST /apply` branch of `apply` (`src/app.py:65-122`).

`insertOk` is the outcome of the `db.session.add` / `db.session.commit`
round-trip and `errDetail` the text of the exception raised when it
fails; `rows0` is the table contents before the request.  The handler
logs the received values, validates, and either re-renders the form with
the fixed error, inserts one row and redirects, or rolls back and
returns the fixed 500 body. -/
def applyPost (insertOk : Bool) (errDetail : Str) (rows0 : List Row)
    (f : FormInput) : ApplyResult :=
  let domains := joinDomains f.domains
  let entryLog : List LogEntry :=
    [⟨.info, .formData f.email f.fullName f.gender f.whatsapp f.college
        f.country f.linkedin domains⟩]
  if !(formValid f) then
    { response := .renderForm (some validationError)
      rows := rows0
      log := entryLog ++ [⟨.warning, .validationFailed validationError⟩] }
  else if insertOk then
    { response := .redirectThankYou
      rows := rows0 ++
        [{ email := f.email.getD []
           full_name := f.fullName.getD []
           gender := f.gender.getD []
           whatsapp := f.whatsapp.getD []
           education := f.college.getD []
           country := f.country.getD []
           linkedin := f.linkedin.getD []
           domains := domains }]
      log := entryLog ++ [⟨.info, .insertSuccess f.email⟩] }
  else
    { response := .serverError serverErrorMsg 500
      rows := rows0
      log := entryLog ++ [⟨.error, .dbError errDetail⟩] }

/-- The store state the Schema Bootstrapper touches: which schemas exist
and which `(schema, table)` pairs exist. -/
structure StoreState where
  schemas : List Str
  tables : List (Str × Str)
deriving DecidableEq

/-- `CREATE SCHEMA IF NOT EXISTS name` (`src/app.py:208`): adds the
schema when absent, leaves the store unchanged when present. -/
def createSchemaIfNotExists (name : Str) (st : StoreState) : StoreState :=
  if name ∈ st.schemas then st
  else { st with schemas := st.schemas ++ [name] }

/-- One table-creation step of `db.create_all()` (`src/app.py:212`),
which issues `CREATE TABLE` only for tables that do not yet exist. -/
def createTableIfNotExists (tbl : Str × Str) (st : StoreState) : StoreState :=
  if tbl ∈ st.tables then st
  else { st with tables := st.tables ++ [tbl] }

/-- The Schema Bootstrapper (`src/app.py:205-212`): ensure the
`ltlab_schema` schema exists, then ensure the one mapped table
`ltlab_schema.applications` exists. -/
def bootstrap (st : StoreState) : StoreState :=
  createTableIfNotExists ("ltlab_schema".data, "applications".data)
    (createSchemaIfNotExists "ltlab_schema".data st)

/-! ## Shared helper lemmas -/

/-- The `if domains_list else ""` guard in the encoder is redundant:
`joinDomains` is the plain comma-join on every list. -/
theorem joinDomains_eq (l : List Str) : joinDomains l = intercalateChar ',' l := by
  cases l with
  | nil => rfl
  | cons x xs => rfl

/-! ## Claims -/

/-- C4: the Domain Encoder maps every ordered list of category strings to
the text obtained by joining its elements with a comma separator — no
deduplication, no reordering — and the empty list yields the empty text. -/
theorem C4_joinDomains_is_comma_join (l : List Str) :
    joinDomains l = intercalateChar ',' l ∧ joinDomains [] = ([] : Str) := by
  exact ⟨joinDomains_eq l, rfl⟩

/-- C10: on a one-element list the Domain Encoder returns that element
unchanged. -/
theorem C10_joinDomains_singleton (x : Str) : joinDomains [x] = x := by
  rfl

/-- C8: validation is decided on the comma-joined encoding, not the raw
list: with all other fields filled, a submission whose `domains`
checkboxes are two empty strings passes validation and stores a row
whose categories column is the single separator comma, while the same
submission with exactly one empty-string checkbox is rejected with the
fixed validation message and stores nothing. -/
theorem C8_validation_on_encoding :
    (applyPost true [] []
      { email := some "a@b.com".data, fullName := some "A B".data,
        gender := some "F".data, whatsapp := some "+1000".data,
        college := some "X Univ".data, country := some "US".data,
        linkedin := some "li.com/a".data, domains := [[], []] }).response
        = ApplyResponse.redirectThankYou ∧
    (applyPost true [] []
      { email := some "a@b.com".data, fullName := some "A B".data,
        gender := some "F".data, whatsapp := some "+1000".data,
        college := some "X Univ".data, country := some "US".data,
        linkedin := some "li.com/a".data, domains := [[], []] }).rows
        = [{ email := "a@b.com".data, full_name := "A B".data,
             gender := "F".data, whatsapp := "+1000".data,
             education := "X Univ".data, country := "US".data,
             linkedin := "li.com/a".data, domains := [','] }] ∧
    (applyPost true [] []
      { email := some "a@b.com".data, fullName := some "A B".data,
        gender := some "F".data, whatsapp := some "+1000".data,
        college := some "X Univ".data, country := some "US".data,
        linkedin := some "li.com/a".data, domains := [[]] }).response
        = ApplyResponse.renderForm (some validationError) ∧
    (applyPost true [] []
      { email := some "a@b.com".data, fullName := some "A B".data,
        gender := some "F".data, whatsapp := some "+1000".data,
        college := some "X Univ".data, country := some "US".data,
        linkedin := some "li.com/a".data, domains := [[]] }).rows = [] := by
  refine ⟨rfl, rfl, rfl, rfl⟩

/-- C1 counterexample: a submission with every required field present and
non-empty and a non-empty selected-categories list — the single category
is the empty string — is nevertheless rejected: the handler re-renders
the form and creates no row instead of redirecting, because validation
tests the comma-joined encoding, which is empty. -/
theorem C1_counterexample :
    (applyPost true [] []
      { email := some "a@b.com".data, fullName := some "A B".data,
        gender := some "F".data, whatsapp := some "+1000".data,
        college := some "X Univ".data, country := some "US".data,
        linkedin := some "li.com/a".data, domains := [[]] }).response
        ≠ ApplyResponse.redirectThankYou ∧
    (applyPost true [] []
      { email := some "a@b.com".data, fullName := some "A B".data,
        gender := some "F".data, whatsapp := some "+1000".data,
        college := some "X Univ".data, country := some "US".data,
        linkedin := some "li.com/a".data, domains := [[]] }).rows = [] := by
  exact ⟨by decide, rfl⟩

/-- C1 (amended): for every submission in which every required field is
present and non-empty and the comma-join of the selected categories is
non-empty, when the insert succeeds the handler appends exactly one row
whose categories column is the comma-join of the selected list —
preserving input order and duplicates — and redirects to the
confirmation route. -/
theorem C1_valid_submission_one_row_redirect (rows0 : List Row)
    (f : FormInput) (d : Str)
    (he : truthy f.email = true) (hf : truthy f.fullName = true)
    (hg : truthy f.gender = true) (hw : truthy f.whatsapp = true)
    (hc : truthy f.college = true) (hco : truthy f.country = true)
    (hl : truthy f.linkedin = true)
    (hd : (joinDomains f.domains).isEmpty = false) :
    (applyPost true d rows0 f).rows = rows0 ++
      [{ email := f.email.getD [], full_name := f.fullName.getD [],
         gender := f.gender.getD [], whatsapp := f.whatsapp.getD [],
         education := f.college.getD [], country := f.country.getD [],
         linkedin := f.linkedin.getD [],
         domains := intercalateChar ',' f.domains }] ∧
    (applyPost true d rows0 f).response = ApplyResponse.redirectThankYou := by
  have hv : formValid f = true := by
    simp [formValid, he, hf, hg, hw, hc, hco, hl, hd]
  constructor
  · simp [applyPost, hv, joinDomains_eq]
  · simp [applyPost, hv]

/-- C1 witness: the spec's own scenario input, evaluated. -/
theorem C1_valid_submission_one_row_redirect_witness :
    (applyPost true [] []
      { email := some "a@b.com".data, fullName := some "A B".data,
        gender := some "F".data, whatsapp := some "+1000".data,
        college := some "X Univ".data, country := some "US".data,
        linkedin := some "li.com/a".data,
        domains := ["DataEng".data, "ML".data] }).rows = [] ++
      [{ email := "a@b.com".data, full_name := "A B".data,
         gender := "F".data, whatsapp := "+1000".data,
         education := "X Univ".data, country := "US".data,
         linkedin := "li.com/a".data, domains := "DataEng,ML".data }] ∧
    (applyPost true [] []
      { email := some "a@b.com".data, fullName := some "A B".data,
        gender := some "F".data, whatsapp := some "+1000".data,
        college := some "X Univ".data, country := some "US".data,
        linkedin := some "li.com/a".data,
        domains := ["DataEng".data, "ML".data] }).response
        = ApplyResponse.redirectThankYou := by
  have h := C1_valid_submission_one_row_redirect []
    { email := some "a@b.com".data, fullName := some "A B".data,
      gender := some "F".data, whatsapp := some "+1000".data,
      college := some "X Univ".data, country := some "US".data,
      linkedin := some "li.com/a".data,
      domains := ["DataEng".data, "ML".data] } []
    (by decide) (by decide) (by decide) (by decide) (by decide) (by decide)
    (by decide) (by decide)
  exact h

/-- C2: whenever one of the seven required fields is missing or empty, or
zero categories are selected, the handler re-renders the form carrying
exactly the fixed validation message and the table is unchanged (zero
rows created), whatever the database would have done. -/
theorem C2_invalid_submission_rejected (insertOk : Bool) (d : Str)
    (rows0 : List Row) (f : FormInput)
    (h : truthy f.email = false ∨ truthy f.fullName = false ∨
      truthy f.gender = false ∨ truthy f.whatsapp = false ∨
      truthy f.college = false ∨ truthy f.country = false ∨
      truthy f.linkedin = false ∨ f.domains = []) :
    (applyPost insertOk d rows0 f).response
      = ApplyResponse.renderForm (some validationError) ∧
    (applyPost insertOk d rows0 f).rows = rows0 := by
  have hv : formValid f = false := by
    rcases h with h | h | h | h | h | h | h | h
    all_goals simp [formValid, h, joinDomains]
  constructor
  · simp [applyPost, hv]
  · simp [applyPost, hv]

/-- C2 witness: a submission with a missing email, evaluated. -/
theorem C2_invalid_submission_rejected_witness :
    (applyPost true [] []
      { email := none, fullName := some "A B".data,
        gender := some "F".data, whatsapp := some "+1000".data,
        college := some "X Univ".data, country := some "US".data,
        linkedin := some "li.com/a".data,
        domains := ["ML".data] }).response
        = ApplyResponse.renderForm (some validationError) ∧
    (applyPost true [] []
      { email := none, fullName := some "A B".data,
        gender := some "F".data, whatsapp := some "+1000".data,
        college := some "X Univ".data, country := some "US".data,
        linkedin := some "li.com/a".data,
        domains := ["ML".data] }).rows = [] := by
  exact C2_invalid_submission_rejected true [] []
    { email := none, fullName := some "A B".data,
      gender := some "F".data, whatsapp := some "+1000".data,
      college := some "X Univ".data, country := some "US".data,
      linkedin := some "li.com/a".data, domains := ["ML".data] }
    (Or.inl (by decide))

/-- C3: when a submission passes validation but the insert fails, the
table is left exactly as it was before the attempt, the user receives
the fixed generic 500 body, and the response is the same whatever the
underlying error detail is — the detail never reaches the user-facing
response. -/
theorem C3_persistence_failure_rolls_back (d : Str) (rows0 : List Row)
    (f : FormInput) (hv : formValid f = true) :
    (applyPost false d rows0 f).rows = rows0 ∧
    (applyPost false d rows0 f).response
      = ApplyResponse.serverError serverErrorMsg 500 ∧
    ∀ d2 : Str, (applyPost false d2 rows0 f).response
      = (applyPost false d rows0 f).response := by
  refine ⟨by simp [applyPost, hv], by simp [applyPost, hv], ?_⟩
  intro d2
  simp [applyPost, hv]

/-- C3 witness: a valid submission with the store offline, evaluated. -/
theorem C3_persistence_failure_rolls_back_witness :
    (applyPost false "connection refused".data
      [{ email := "x".data, full_name := "x".data, gender := "x".data,
         whatsapp := "x".data, education := "x".data, country := "x".data,
         linkedin := "x".data, domains := "x".data }]
      { email := some "a@b.com".data, fullName := some "A B".data,
        gender := some "F".data, whatsapp := some "+1000".data,
        college := some "X Univ".data, country := some "US".data,
        linkedin := some "li.com/a".data, domains := ["ML".data] }).rows
      = [{ email := "x".data, full_name := "x".data, gender := "x".data,
           whatsapp := "x".data, education := "x".data, country := "x".data,
           linkedin := "x".data, domains := "x".data }] ∧
    (applyPost false "connection refused".data
      [{ email := "x".data, full_name := "x".data, gender := "x".data,
         whatsapp := "x".data, education := "x".data, country := "x".data,
         linkedin := "x".data, domains := "x".data }]
      { email := some "a@b.com".data, fullName := some "A B".data,
        gender := some "F".data, whatsapp := some "+1000".data,
        college := some "X Univ".data, country := some "US".data,
        linkedin := some "li.com/a".data, domains := ["ML".data] }).response
      = ApplyResponse.serverError serverErrorMsg 500 ∧
    ∀ d2 : Str, (applyPost false d2
      [{ email := "x".data, full_name := "x".data, gender := "x".data,
         whatsapp := "x".data, education := "x".data, country := "x".data,
         linkedin := "x".data, domains := "x".data }]
      { email := some "a@b.com".data, fullName := some "A B".data,
        gender := some "F".data, whatsapp := some "+1000".data,
        college := some "X Univ".data, country := some "US".data,
        linkedin := some "li.com/a".data, domains := ["ML".data] }).response
      = (applyPost false "connection refused".data
      [{ email := "x".data, full_name := "x".data, gender := "x".data,
         whatsapp := "x".data, education := "x".data, country := "x".data,
         linkedin := "x".data, domains := "x".data }]
      { email := some "a@b.com".data, fullName := some "A B".data,
        gender := some "F".data, whatsapp := some "+1000".data,
        college := some "X Univ".data, country := some "US".data,
        linkedin := some "li.com/a".data, domains := ["ML".data] }).response := by
  exact C3_persistence_failure_rolls_back "connection refused".data
    [{ email := "x".data, full_name := "x".data, gender := "x".data,
       whatsapp := "x".data, education := "x".data, country := "x".data,
       linkedin := "x".data, domains := "x".data }]
    { email := some "a@b.com".data, fullName := some "A B".data,
      gender := some "F".data, whatsapp := some "+1000".data,
      college := some "X Univ".data, country := some "US".data,
      linkedin := some "li.com/a".data, domains := ["ML".data] }
    (by decide)

/-- C7: on every `POST /apply` attempt the handler first logs the
received field values at informational level, before validation, and
then logs exactly one outcome entry: a warning on validation failure, an
informational entry on persistence success, and an error entry carrying
the failure detail on persistence failure. -/
theorem C7_logging (insertOk : Bool) (d : Str) (rows0 : List Row)
    (f : FormInput) :
    (applyPost insertOk d rows0 f).log =
      ⟨LogLevel.info, LogEvent.formData f.email f.fullName f.gender
        f.whatsapp f.college f.country f.linkedin (joinDomains f.domains)⟩ ::
      (if formValid f = false then
        [⟨LogLevel.warning, LogEvent.validationFailed validationError⟩]
      else if insertOk then
        [⟨LogLevel.info, LogEvent.insertSuccess f.email⟩]
      else
        [⟨LogLevel.error, LogEvent.dbError d⟩]) := by
  cases hv : formValid f <;> cases insertOk <;> simp [applyPost, hv]

/-- A present, non-empty field value is truthy. -/
theorem truthy_some_of_ne {s : Str} (h : s ≠ []) : truthy (some s) = true := by
  cases s with
  | nil => exact absurd rfl h
  | cons a as => rfl

/-- C9: no whitespace trimming is applied: whichever of the seven
required fields consists only of whitespace, it counts as present and
non-empty, so when every other requirement is met the submission passes
validation and every field value — the whitespace one included — is
persisted exactly as received. -/
theorem C9_whitespace_not_trimmed (rows0 : List Row) (d : Str)
    (e fn g w c co l : Str) (doms : List Str)
    (_hws : ∃ s ∈ [e, fn, g, w, c, co, l],
      s ≠ [] ∧ s.all Char.isWhitespace = true)
    (he : e ≠ []) (hf : fn ≠ []) (hg : g ≠ []) (hw : w ≠ [])
    (hc : c ≠ []) (hco : co ≠ []) (hl : l ≠ [])
    (hd : (joinDomains doms).isEmpty = false) :
    (applyPost true d rows0
      { email := some e, fullName := some fn, gender := some g,
        whatsapp := some w, college := some c, country := some co,
        linkedin := some l, domains := doms }).response
      = ApplyResponse.redirectThankYou ∧
    (applyPost true d rows0
      { email := some e, fullName := some fn, gender := some g,
        whatsapp := some w, college := some c, country := some co,
        linkedin := some l, domains := doms }).rows = rows0 ++
      [{ email := e, full_name := fn, gender := g, whatsapp := w,
         education := c, country := co, linkedin := l,
         domains := joinDomains doms }] := by
  have hv : formValid
      { email := some e, fullName := some fn, gender := some g,
        whatsapp := some w, college := some c, country := some co,
        linkedin := some l, domains := doms } = true := by
    simp [formValid, truthy_some_of_ne he, truthy_some_of_ne hf,
      truthy_some_of_ne hg, truthy_some_of_ne hw, truthy_some_of_ne hc,
      truthy_some_of_ne hco, truthy_some_of_ne hl, hd]
  constructor
  · simp [applyPost, hv]
  · simp [applyPost, hv]

/-- C9 witness: a submission whose email field is a single space,
evaluated. -/
theorem C9_whitespace_not_trimmed_witness :
    (applyPost true [] []
      { email := some [' '], fullName := some "A B".data,
        gender := some "F".data, whatsapp := some "+1000".data,
        college := some "X Univ".data, country := some "US".data,
        linkedin := some "li.com/a".data,
        domains := ["ML".data] }).response
        = ApplyResponse.redirectThankYou ∧
    (applyPost true [] []
      { email := some [' '], fullName := some "A B".data,
        gender := some "F".data, whatsapp := some "+1000".data,
        college := some "X Univ".data, country := some "US".data,
        linkedin := some "li.com/a".data,
        domains := ["ML".data] }).rows = [] ++
      [{ email := [' '], full_name := "A B".data,
         gender := "F".data, whatsapp := "+1000".data,
         education := "X Univ".data, country := "US".data,
         linkedin := "li.com/a".data,
         domains := joinDomains ["ML".data] }] := by
  exact C9_whitespace_not_trimmed [] [] [' '] "A B".data "F".data
    "+1000".data "X Univ".data "US".data "li.com/a".data ["ML".data]
    ⟨[' '], by decide, by decide, by decide⟩
    (by decide) (by decide) (by decide) (by decide) (by decide) (by decide)
    (by decide) (by decide)

/-! ## Split/join helpers for C5 -/

theorem splitComma_ne_nil (s : Str) : splitComma s ≠ [] := by
  cases s with
  | nil => simp [splitComma]
  | cons c rest =>
    rw [splitComma]
    cases h : splitComma rest with
    | nil => simp
    | cons w ws => by_cases hc : c = ',' <;> simp [hc]

theorem splitComma_no_comma (x : Str) (hx : ',' ∉ x) : splitComma x = [x] := by
  induction x with
  | nil => rfl
  | cons c cs ih =>
    rw [List.mem_cons, not_or] at hx
    have hc : ¬ c = ',' := fun h => hx.1 h.symm
    rw [splitComma, ih hx.2]
    simp [hc]

theorem splitComma_append_comma (x s : Str) (hx : ',' ∉ x) :
    splitComma (x ++ ',' :: s) = x :: splitComma s := by
  induction x with
  | nil =>
    rw [List.nil_append, splitComma]
    cases h : splitComma s with
    | nil => exact absurd h (splitComma_ne_nil s)
    | cons w ws => simp
  | cons c cs ih =>
    rw [List.mem_cons, not_or] at hx
    have hc : ¬ c = ',' := fun h => hx.1 h.symm
    rw [List.cons_append, splitComma, ih hx.2]
    simp [hc]

theorem splitComma_joinDomains_cons (xs : List Str) :
    ∀ x : Str, (∀ s ∈ x :: xs, ',' ∉ s) →
      splitComma (joinDomains (x :: xs)) = x :: xs := by
  induction xs with
  | nil =>
    intro x h
    have hj : joinDomains [x] = x := rfl
    rw [hj]
    exact splitComma_no_comma x (h x (List.mem_cons_self _ _))
  | cons y ys ih =>
    intro x h
    have h1 : joinDomains (x :: y :: ys) = x ++ ',' :: joinDomains (y :: ys) := by
      rw [joinDomains_eq, joinDomains_eq]
      simp [intercalateChar]
    rw [h1, splitComma_append_comma x _ (h x (List.mem_cons_self _ _)),
      ih y (fun s hs => h s (List.mem_cons_of_mem _ hs))]

/-- C5 counterexample: splitting the encoder's output on comma does not
recover the original list in general: the empty list encodes to the
empty text, which splits back to a one-element list, and an element that
itself contains a comma is split apart. -/
theorem C5_counterexample :
    splitComma (joinDomains []) ≠ ([] : List Str) ∧
    splitComma (joinDomains ["a,b".data]) ≠ ["a,b".data] := by
  exact ⟨by decide, by decide⟩

/-- C5 (amended): for every non-empty list of selected category strings
none of which contains a comma, splitting the Domain Encoder's output on
the comma separator recovers the original list. -/
theorem C5_split_roundtrip (l : List Str) (hne : l ≠ [])
    (hcf : ∀ s ∈ l, ',' ∉ s) : splitComma (joinDomains l) = l := by
  cases l with
  | nil => exact absurd rfl hne
  | cons x xs => exact splitComma_joinDomains_cons xs x hcf

/-- C5 witness: the round trip evaluated on the spec scenario's two
categories. -/
theorem C5_split_roundtrip_witness :
    splitComma (joinDomains ["DataEng".data, "ML".data])
      = ["DataEng".data, "ML".data] :=
  C5_split_roundtrip ["DataEng".data, "ML".data] (by decide) (by decide)

/-! ## Bootstrap helpers for C6 -/

theorem createSchemaIfNotExists_of_mem {n : Str} {st : StoreState}
    (h : n ∈ st.schemas) : createSchemaIfNotExists n st = st := by
  simp [createSchemaIfNotExists, h]

theorem createTableIfNotExists_of_mem {t : Str × Str} {st : StoreState}
    (h : t ∈ st.tables) : createTableIfNotExists t st = st := by
  simp [createTableIfNotExists, h]

theorem schemas_createTableIfNotExists (t : Str × Str) (st : StoreState) :
    (createTableIfNotExists t st).schemas = st.schemas := by
  by_cases h : t ∈ st.tables
  · simp [createTableIfNotExists, h]
  · simp [createTableIfNotExists, h]

theorem mem_schemas_createSchemaIfNotExists (n : Str) (st : StoreState) :
    n ∈ (createSchemaIfNotExists n st).schemas := by
  by_cases h : n ∈ st.schemas
  · simp [createSchemaIfNotExists, h]
  · simp [createSchemaIfNotExists, h]

theorem mem_tables_createTableIfNotExists (t : Str × Str) (st : StoreState) :
    t ∈ (createTableIfNotExists t st).tables := by
  by_cases h : t ∈ st.tables
  · simp [createTableIfNotExists, h]
  · simp [createTableIfNotExists, h]

/-- C6: the Schema Bootstrapper is idempotent: running it twice in
sequence leaves exactly the schema and table state of running it once. -/
theorem C6_bootstrap_idempotent (st : StoreState) :
    bootstrap (bootstrap st) = bootstrap st := by
  have h1 : "ltlab_schema".data ∈ (bootstrap st).schemas := by
    rw [bootstrap, schemas_createTableIfNotExists]
    exact mem_schemas_createSchemaIfNotExists _ _
  have h2 : ("ltlab_schema".data, "applications".data) ∈ (bootstrap st).tables := by
    rw [bootstrap]
    exact mem_tables_createTableIfNotExists _ _
  conv_lhs => rw [bootstrap]
  rw [createSchemaIfNotExists_of_mem h1, createTableIfNotExists_of_mem h2]

end LTLab
